import Mathlib

/-!
Verification of the `trading_bot` repository (`src/bot.py`, class `BasicBot`)
against its natural-language specification.

The embedding models the Exchange Adapter (`_safe_execute`,
`place_market_order`, `place_limit_order`, `place_stop_limit`) and the TWAP
Slicer (`place_twap`) of `src/bot.py`, lines 1-89 (the remainder of that file
is an unparseable duplicated fragment of the same class; the claims reference
the first, coherent copy).

Modelling choices:
- Python `float` quantities are modelled as exact rationals (`ℚ`); Python
  `round(x, 8)` (round-half-to-even at 8 decimal places) is `round8`.
  Wherever a theorem below evaluates the embedding at a concrete input, the
  IEEE-754 double execution of the Python code was checked by hand to produce
  the same 8-decimal quantities as the rational embedding asserts.
- The external exchange client (`self.client.futures_create_order`) is an
  oracle: a function from the built parameter set to `Except Exc α`, where
  `Except.error` models a raised exception and `Except.ok` a success payload.
  For `place_twap`, the oracle additionally takes the slice index, so a mocked
  adapter can succeed or fail per slice.
- Effects are made explicit as data: `place_twap` returns, inside
  `Except String` (modelling the `ValueError` raised on `slices <= 0`), a
  `TwapTrace` recording the adapter results in order, the submitted slice
  quantities in order, and the number of `time.sleep(interval_s)` calls.
-/

namespace TradingBot

/-- Round-half-to-even of a rational to an integer, as Python `round` does. -/
def roundHalfEven (q : ℚ) : ℤ :=
  if q - ⌊q⌋ < 1 / 2 then ⌊q⌋
  else if 1 / 2 < q - ⌊q⌋ then ⌊q⌋ + 1
  else if ⌊q⌋ % 2 = 0 then ⌊q⌋ else ⌊q⌋ + 1

/-- Python `round(x, 8)`: round to 8 decimal places, ties to even. -/
def round8 (q : ℚ) : ℚ :=
  (roundHalfEven (q * 10 ^ 8) : ℚ) / 10 ^ 8

/-- A value in the parameter dict passed to `futures_create_order`:
either a string (symbol, side, type, timeInForce) or a number. -/
inductive PVal where
  | str (v : String)
  | num (v : ℚ)
deriving DecidableEq

/-- The exceptions `_safe_execute` distinguishes: `BinanceAPIException`
(handled at `bot.py:52`) and any other `Exception` (handled at `bot.py:55`).
Both carry a human-readable message (`e.message` resp. `str(e)`). -/
inductive Exc where
  | binanceAPI (message : String)
  | other (message : String)
deriving DecidableEq

/-- The message `_safe_execute` extracts from an exception:
`getattr(e, 'message', str(e))` for `BinanceAPIException`, `str(e)` otherwise. -/
def Exc.message : Exc → String
  | .binanceAPI m => m
  | .other m => m

/-- An Order Result as returned from `_safe_execute` (`bot.py:43-58`):
the success payload passed through unchanged, or the dict
`\x7b"error": message\x7d` built in the two except-branches. -/
inductive AdapterResult (α : Type) where
  | success (payload : α)
  | error (msg : String)
deriving DecidableEq

/-- `BasicBot._safe_execute` (`bot.py:43-58`): invoke the underlying call;
pass a success payload through unchanged; turn any raised exception into
an error descriptor carrying the exception message. Logging is effect-only
and not part of the returned value. -/
def safe_execute {α : Type} (resp : Except Exc α) : AdapterResult α :=
  match resp with
  | .ok r => .success r
  | .error e => .error e.message

/-- Parameter dict built by `place_market_order` (`bot.py:62`), in literal
order: `dict(symbol=symbol, side=side, type="MARKET", quantity=quantity)`. -/
def marketParams (symbol side : String) (quantity : ℚ) : List (String × PVal) :=
  [("symbol", .str symbol), ("side", .str side), ("type", .str "MARKET"),
   ("quantity", .num quantity)]

/-- Parameter dict built by `place_limit_order` (`bot.py:67`):
`dict(symbol=symbol, side=side, type="LIMIT", timeInForce="GTC", price=price,
quantity=quantity)`. -/
def limitParams (symbol side : String) (quantity price : ℚ) :
    List (String × PVal) :=
  [("symbol", .str symbol), ("side", .str side), ("type", .str "LIMIT"),
   ("timeInForce", .str "GTC"), ("price", .num price),
   ("quantity", .num quantity)]

/-- Parameter dict built by `place_stop_limit` (`bot.py:72`):
`dict(symbol=symbol, side=side, type="STOP", timeInForce="GTC", price=price,
stopPrice=stop_price, quantity=quantity)`. -/
def stopLimitParams (symbol side : String) (quantity price stop_price : ℚ) :
    List (String × PVal) :=
  [("symbol", .str symbol), ("side", .str side), ("type", .str "STOP"),
   ("timeInForce", .str "GTC"), ("price", .num price),
   ("stopPrice", .num stop_price), ("quantity", .num quantity)]

/-- `BasicBot.place_market_order` (`bot.py:61-63`): build the market params
and run `futures_create_order` (the oracle `exchange`) through
`_safe_execute`. -/
def place_market_order {α : Type} (exchange : List (String × PVal) → Except Exc α)
    (symbol side : String) (quantity : ℚ) : AdapterResult α :=
  safe_execute (exchange (marketParams symbol side quantity))

/-- `BasicBot.place_limit_order` (`bot.py:66-68`). -/
def place_limit_order {α : Type} (exchange : List (String × PVal) → Except Exc α)
    (symbol side : String) (quantity price : ℚ) : AdapterResult α :=
  safe_execute (exchange (limitParams symbol side quantity price))

/-- `BasicBot.place_stop_limit` (`bot.py:71-73`). -/
def place_stop_limit {α : Type} (exchange : List (String × PVal) → Except Exc α)
    (symbol side : String) (quantity price stop_price : ℚ) : AdapterResult α :=
  safe_execute (exchange (stopLimitParams symbol side quantity price stop_price))

/-- The quantity submitted for slice `i` (0-based) of a TWAP plan
(`bot.py:80-83`): `base = float(total_quantity) / slices`;
`qty = round(base, 8) if i < slices - 1 else
round(total_quantity - base * (slices - 1), 8)`. -/
def twapSliceQty (total_quantity : ℚ) (slices : ℕ) (i : ℕ) : ℚ :=
  if i < slices - 1 then round8 (total_quantity / (slices : ℚ))
  else round8 (total_quantity -
    total_quantity / (slices : ℚ) * ((slices : ℚ) - 1))

/-- The observable outcome of one `place_twap` call: the list `results`
returned by the Python function, the slice quantities submitted to
`place_market_order` in order, and how many `time.sleep(interval_s)` calls
occurred. -/
@[ext]
structure TwapTrace (α : Type) where
  results : List (AdapterResult α)
  quantities : List ℚ
  sleepCount : ℕ
deriving DecidableEq

/-- One iteration of the `for i in range(slices)` loop of `place_twap`
(`bot.py:81-88`): compute the slice quantity, place the market order, append
the result, and sleep unless this is the last slice. -/
def twapStep {α : Type} (exchange : ℕ → List (String × PVal) → Except Exc α)
    (symbol side : String) (total_quantity : ℚ) (n : ℕ)
    (tr : TwapTrace α) (i : ℕ) : TwapTrace α :=
  let qty := twapSliceQty total_quantity n i
  let res := place_market_order (exchange i) symbol side qty
  { results := tr.results ++ [res]
    quantities := tr.quantities ++ [qty]
    sleepCount := tr.sleepCount + (if i < n - 1 then 1 else 0) }

/-- `BasicBot.place_twap` (`bot.py:76-89`): raise `ValueError` when
`slices <= 0`, otherwise run the slice loop and return the results.
The `interval_s` argument only feeds `time.sleep`; the trace records the
number of sleeps. -/
def place_twap {α : Type} (exchange : ℕ → List (String × PVal) → Except Exc α)
    (symbol side : String) (total_quantity : ℚ) (slices : ℤ)
    (interval_s : ℤ) : Except String (TwapTrace α) :=
  if slices ≤ 0 then Except.error "slices must be >= 1"
  else
    Except.ok <| (List.range slices.toNat).foldl
      (twapStep exchange symbol side total_quantity slices.toNat)
      ⟨[], [], 0⟩

/-- A mocked exchange oracle that always succeeds with a fixed payload. -/
def mockOk : ℕ → List (String × PVal) → Except Exc Unit :=
  fun _ _ => Except.ok ()

/-- A mocked exchange oracle for a five-slice TWAP plan in which the second
slice (index 1) fails with a `BinanceAPIException` and every other slice
succeeds. -/
def mockSlice2Fails : ℕ → List (String × PVal) → Except Exc Unit :=
  fun i _ => if i = 1 then Except.error (Exc.binanceAPI "Insufficient margin")
             else Except.ok ()

/-! ### Helper lemmas for evaluating the embedding -/

theorem roundHalfEven_eq_of_lt_half (q : ℚ) (f : ℤ) (h₁ : (f : ℚ) ≤ q)
    (h₂ : q - f < 1 / 2) : roundHalfEven q = f := by
  have hf : ⌊q⌋ = f := Int.floor_eq_iff.mpr ⟨h₁, by linarith⟩
  simp only [roundHalfEven, hf]
  rw [if_pos h₂]

theorem roundHalfEven_eq_of_gt_half (q : ℚ) (f : ℤ) (h₁ : (f : ℚ) ≤ q)
    (h₂ : 1 / 2 < q - f) (h₃ : q < f + 1) : roundHalfEven q = f + 1 := by
  have hf : ⌊q⌋ = f := Int.floor_eq_iff.mpr ⟨h₁, by linarith⟩
  simp only [roundHalfEven, hf]
  rw [if_neg (by linarith), if_pos h₂]

theorem round8_eq (q : ℚ) (n : ℤ) (h : roundHalfEven (q * 10 ^ 8) = n) :
    round8 q = (n : ℚ) / 10 ^ 8 := by
  simp only [round8, h]

theorem round8_one_third : round8 (1 / 3) = 33333333 / 100000000 := by
  have h : roundHalfEven ((1 : ℚ) / 3 * 10 ^ 8) = 33333333 := by
    apply roundHalfEven_eq_of_lt_half <;> norm_num
  rw [round8_eq _ _ h]; norm_num

theorem round8_one_thirtieth : round8 (1 / 30) = 3333333 / 100000000 := by
  have h : roundHalfEven ((1 : ℚ) / 30 * 10 ^ 8) = 3333333 := by
    apply roundHalfEven_eq_of_lt_half <;> norm_num
  rw [round8_eq _ _ h]; norm_num

theorem round8_tiny : round8 (1 / 1000000000) = 0 := by
  have h : roundHalfEven ((1 : ℚ) / 1000000000 * 10 ^ 8) = 0 := by
    apply roundHalfEven_eq_of_lt_half <;> norm_num
  rw [round8_eq _ _ h]; norm_num

theorem round8_neg_tiny : round8 (-(1 / 1000000000)) = 0 := by
  have h : roundHalfEven (-(1 : ℚ) / 1000000000 * 10 ^ 8) = 0 := by
    have := roundHalfEven_eq_of_gt_half (-(1 : ℚ) / 1000000000 * 10 ^ 8) (-1)
      (by norm_num) (by norm_num) (by norm_num)
    simpa using this
  rw [show (-((1 : ℚ) / 1000000000)) = -(1 : ℚ) / 1000000000 by ring, round8_eq _ _ h]
  norm_num

theorem round8_neg_one_third : round8 (-1 / 3) = -33333333 / 100000000 := by
  have h : roundHalfEven (-1 / 3 * 10 ^ 8 : ℚ) = -33333333 := by
    have := roundHalfEven_eq_of_gt_half (-1 / 3 * 10 ^ 8 : ℚ) (-33333334)
      (by norm_num) (by norm_num) (by norm_num)
    simpa using this
  rw [round8_eq _ _ h]; norm_num

theorem round8_one : round8 1 = 1 := by
  have h : roundHalfEven ((1 : ℚ) * 10 ^ 8) = 100000000 := by
    apply roundHalfEven_eq_of_lt_half <;> norm_num
  rw [round8_eq _ _ h]; norm_num

theorem round8_zero : round8 0 = 0 := by
  have h : roundHalfEven ((0 : ℚ) * 10 ^ 8) = 0 := by
    apply roundHalfEven_eq_of_lt_half <;> norm_num
  rw [round8_eq _ _ h]; norm_num

theorem twapFoldl_results {α : Type} (ex : ℕ → List (String × PVal) → Except Exc α)
    (s sd : String) (t : ℚ) (n : ℕ) :
    ∀ (l : List ℕ) (tr : TwapTrace α),
      (l.foldl (twapStep ex s sd t n) tr).results =
        tr.results ++ l.map (fun i => place_market_order (ex i) s sd (twapSliceQty t n i)) := by
  intro l
  induction l with
  | nil => intro tr; simp
  | cons a l ih => intro tr; simp [List.foldl_cons, ih, twapStep]

theorem twapFoldl_quantities {α : Type} (ex : ℕ → List (String × PVal) → Except Exc α)
    (s sd : String) (t : ℚ) (n : ℕ) :
    ∀ (l : List ℕ) (tr : TwapTrace α),
      (l.foldl (twapStep ex s sd t n) tr).quantities =
        tr.quantities ++ l.map (twapSliceQty t n) := by
  intro l
  induction l with
  | nil => intro tr; simp
  | cons a l ih => intro tr; simp [List.foldl_cons, ih, twapStep]

theorem twapFoldl_sleepCount {α : Type} (ex : ℕ → List (String × PVal) → Except Exc α)
    (s sd : String) (t : ℚ) (n : ℕ) :
    ∀ (l : List ℕ) (tr : TwapTrace α),
      (l.foldl (twapStep ex s sd t n) tr).sleepCount =
        tr.sleepCount + (l.map fun i => if i < n - 1 then 1 else 0).sum := by
  intro l
  induction l with
  | nil => intro tr; simp
  | cons a l ih => intro tr; simp [List.foldl_cons, ih, twapStep]; omega

theorem sum_ite_range (k : ℕ) : ∀ (m : ℕ),
    ((List.range m).map fun i => if i < k then (1 : ℕ) else 0).sum = min m k := by
  intro m
  induction m with
  | zero => simp
  | succ m ih =>
    rw [List.range_succ]
    by_cases h : m < k <;> simp [ih, h] <;> omega

/-- `place_twap` with a positive slice count: the branch not raising
`ValueError`, exposing the slice loop. -/
theorem place_twap_pos {α : Type} (ex : ℕ → List (String × PVal) → Except Exc α)
    (s sd : String) (t : ℚ) (slices interval : ℤ) (h : 0 < slices) :
    place_twap ex s sd t slices interval =
      Except.ok ((List.range slices.toNat).foldl
        (twapStep ex s sd t slices.toNat) ⟨[], [], 0⟩) := by
  simp only [place_twap]
  rw [if_neg (by omega)]

/-- The complete observable outcome of a successful `place_twap` call:
per-slice results in order, per-slice quantities in order, and one sleep
after every slice but the last. -/
theorem place_twap_ok {α : Type} (ex : ℕ → List (String × PVal) → Except Exc α)
    (s sd : String) (t : ℚ) (slices interval : ℤ) (h : 0 < slices) :
    place_twap ex s sd t slices interval = Except.ok
      { results := (List.range slices.toNat).map
          (fun i => place_market_order (ex i) s sd (twapSliceQty t slices.toNat i))
        quantities := (List.range slices.toNat).map (twapSliceQty t slices.toNat)
        sleepCount := slices.toNat - 1 } := by
  rw [place_twap_pos ex s sd t slices interval h]
  congr 1
  refine TwapTrace.ext ?_ ?_ ?_
  · rw [twapFoldl_results]; simp
  · rw [twapFoldl_quantities]; simp
  · rw [twapFoldl_sleepCount]
    simp [sum_ite_range]

/-! ### Claim theorems -/

/-- Claim C2: `place_twap` with `slices <= 0` fails with the
invalid-argument error `ValueError("slices must be >= 1")` on the branch
that submits no order and performs no sleep (the error result carries no
trace), while for `slices >= 1` the precondition check raises nothing and
the call returns a result list. -/
theorem place_twap_slices_precondition {α : Type}
    (ex : ℕ → List (String × PVal) → Except Exc α) (s sd : String)
    (t : ℚ) (slices interval : ℤ) :
    (slices ≤ 0 → place_twap ex s sd t slices interval =
      Except.error "slices must be >= 1") ∧
    (1 ≤ slices →
      ∃ tr, place_twap ex s sd t slices interval = Except.ok tr) := by
  constructor
  · intro h
    simp only [place_twap]
    rw [if_pos h]
  · intro h
    exact ⟨_, place_twap_pos ex s sd t slices interval (by omega)⟩

theorem place_twap_slices_precondition_witness :
    place_twap mockOk "BTCUSDT" "BUY" 1 0 1 =
      Except.error "slices must be >= 1" ∧
    ∃ tr, place_twap mockOk "BTCUSDT" "BUY" 1 3 1 = Except.ok tr :=
  ⟨(place_twap_slices_precondition mockOk "BTCUSDT" "BUY" 1 0 1).1 (by norm_num),
   (place_twap_slices_precondition mockOk "BTCUSDT" "BUY" 1 3 1).2 (by norm_num)⟩

/-- Claim C3: each adapter order operation turns a raised exception carrying
message `m` into the error descriptor with that message instead of
propagating it; in particular a `BinanceAPIException` with message
"Insufficient margin" yields exactly the error result
`\x7berror: "Insufficient margin"\x7d`. -/
theorem adapter_normalizes_exceptions {α : Type} (s sd : String)
    (q p sp : ℚ) (e : Exc) :
    (place_market_order (fun _ => Except.error e) s sd q
      = (AdapterResult.error e.message : AdapterResult α)) ∧
    (place_limit_order (fun _ => Except.error e) s sd q p
      = (AdapterResult.error e.message : AdapterResult α)) ∧
    (place_stop_limit (fun _ => Except.error e) s sd q p sp
      = (AdapterResult.error e.message : AdapterResult α)) ∧
    (place_market_order
        (fun _ => Except.error (Exc.binanceAPI "Insufficient margin")) s sd q
      = (AdapterResult.error "Insufficient margin" : AdapterResult α)) :=
  ⟨rfl, rfl, rfl, rfl⟩

/-- Claim C7: every Order Result of the three adapter operations is exactly
one of the success payload passed through unchanged or an error descriptor:
never both, never neither. -/
theorem order_result_exactly_one {α : Type} (resp : Except Exc α)
    (s sd : String) (q p sp : ℚ) :
    (place_market_order (fun _ => resp) s sd q = safe_execute resp ∧
     place_limit_order (fun _ => resp) s sd q p = safe_execute resp ∧
     place_stop_limit (fun _ => resp) s sd q p sp = safe_execute resp) ∧
    ((∃ pay, safe_execute resp = AdapterResult.success pay ∧
        resp = Except.ok pay) ∨
     (∃ m, safe_execute resp = AdapterResult.error m)) ∧
    ¬ ∃ pay m, safe_execute resp = AdapterResult.success pay ∧
        safe_execute resp = AdapterResult.error m := by
  refine ⟨⟨rfl, rfl, rfl⟩, ?_, ?_⟩
  · cases resp with
    | ok r => exact Or.inl ⟨r, rfl, rfl⟩
    | error e => exact Or.inr ⟨e.message, rfl⟩
  · rintro ⟨pay, m, h1, h2⟩
    rw [h1] at h2
    exact AdapterResult.noConfusion h2

/-- Claim C8: the parameter set dispatched for limit and stop-limit orders
carries `timeInForce = "GTC"`, while the market order parameter set has no
`timeInForce` entry; each operation dispatches exactly its built parameter
set to the exchange call. -/
theorem timeInForce_gtc_for_non_market {α : Type}
    (ex : List (String × PVal) → Except Exc α) (s sd : String) (q p sp : ℚ) :
    (limitParams s sd q p).lookup "timeInForce" = some (PVal.str "GTC") ∧
    (stopLimitParams s sd q p sp).lookup "timeInForce"
      = some (PVal.str "GTC") ∧
    (marketParams s sd q).lookup "timeInForce" = none ∧
    place_market_order ex s sd q = safe_execute (ex (marketParams s sd q)) ∧
    place_limit_order ex s sd q p
      = safe_execute (ex (limitParams s sd q p)) ∧
    place_stop_limit ex s sd q p sp
      = safe_execute (ex (stopLimitParams s sd q p sp)) :=
  ⟨rfl, rfl, rfl, rfl, rfl, rfl⟩

/-- Claim C10: the sequence of submitted slice quantities is a function of
`(total_quantity, slices)` alone: two calls agreeing on those two arguments
produce equal quantity sequences, whatever their symbol, side, interval, or
exchange behavior (success or failure of any slice). -/
theorem twap_quantities_deterministic {α β : Type}
    (ex₁ : ℕ → List (String × PVal) → Except Exc α)
    (ex₂ : ℕ → List (String × PVal) → Except Exc β)
    (s₁ sd₁ s₂ sd₂ : String) (total : ℚ) (slices : ℤ) (i₁ i₂ : ℤ) :
    (place_twap ex₁ s₁ sd₁ total slices i₁).map TwapTrace.quantities =
    (place_twap ex₂ s₂ sd₂ total slices i₂).map TwapTrace.quantities := by
  by_cases h : slices ≤ 0
  · simp only [place_twap]
    rw [if_pos h, if_pos h]
    rfl
  · rw [place_twap_ok ex₁ s₁ sd₁ total slices i₁ (by omega),
        place_twap_ok ex₂ s₂ sd₂ total slices i₂ (by omega)]
    rfl

/-- Claim C6 as stated fails on the code: with `slices = 1` the single
slice's quantity is `round(total_quantity - base * 0, 8) = round8
total_quantity`, which differs from `total_quantity` when the total has
more than 8 decimal places. Amended claim: with `slices = 1` exactly one
market order is submitted, its quantity is `total_quantity` rounded to 8
decimal places, and no sleep occurs. -/
theorem twap_single_slice {α : Type}
    (ex : ℕ → List (String × PVal) → Except Exc α) (s sd : String)
    (total : ℚ) (interval : ℤ) :
    place_twap ex s sd total 1 interval = Except.ok
      { results := [place_market_order (ex 0) s sd (round8 total)]
        quantities := [round8 total]
        sleepCount := 0 } := by
  rw [place_twap_ok ex s sd total 1 interval (by norm_num)]
  have hq : twapSliceQty total 1 0 = round8 total := by
    simp only [twapSliceQty]
    rw [if_neg (by norm_num),
        show total - total / ((1 : ℕ) : ℚ) * (((1 : ℕ) : ℚ) - 1) = total by
          push_cast; ring]
  rw [show ((1 : ℤ).toNat) = 1 from rfl, show List.range 1 = [0] from rfl]
  simp only [List.map_cons, List.map_nil, hq]

/-- Claim C6 counterexample: `place_twap` with `slices = 1` and
`total_quantity = 10⁻⁹` submits the single quantity
`round(10⁻⁹, 8) = 0`, not the full `total_quantity`. (IEEE-754 execution
agrees: `round(1e-9, 8)` is `0.0` in Python.) -/
theorem twap_single_slice_cex :
    place_twap mockOk "BTCUSDT" "BUY" (1 / 1000000000) 1 0 = Except.ok
      { results := [AdapterResult.success ()]
        quantities := [0]
        sleepCount := 0 } ∧
    (0 : ℚ) ≠ 1 / 1000000000 := by
  constructor
  · rw [place_twap_ok mockOk "BTCUSDT" "BUY" (1 / 1000000000) 1 0
      (by norm_num)]
    have hq : twapSliceQty (1 / 1000000000) 1 0 = 0 := by
      simp only [twapSliceQty]
      rw [if_neg (by norm_num),
          show (1 : ℚ) / 1000000000 -
              (1 : ℚ) / 1000000000 / ((1 : ℕ) : ℚ) * (((1 : ℕ) : ℚ) - 1)
              = 1 / 1000000000 by push_cast; ring]
      exact round8_tiny
    rw [show ((1 : ℤ).toNat) = 1 from rfl, show List.range 1 = [0] from rfl]
    simp only [List.map_cons, List.map_nil, hq]
    rfl
  · norm_num

/-- Claim C4: with `slices = N ≥ 1` the returned sequence has length exactly
`N` and its i-th entry is the adapter result of the i-th slice, errors
included — the loop never stops early. Concretely, a five-slice plan whose
second slice fails returns five entries with the error descriptor at
position 2 (1-based) and success payloads elsewhere. -/
theorem twap_results_per_slice {α : Type}
    (ex : ℕ → List (String × PVal) → Except Exc α) (s sd : String)
    (total : ℚ) (slices interval : ℤ) (h : 1 ≤ slices) :
    (∃ tr, place_twap ex s sd total slices interval = Except.ok tr ∧
      tr.results.length = slices.toNat ∧
      ∀ i, i < slices.toNat →
        tr.results[i]? = some (place_market_order (ex i) s sd
          (twapSliceQty total slices.toNat i))) ∧
    place_twap mockSlice2Fails "BTCUSDT" "BUY" 5 5 0 = Except.ok
      { results := [AdapterResult.success (),
                    AdapterResult.error "Insufficient margin",
                    AdapterResult.success (), AdapterResult.success (),
                    AdapterResult.success ()]
        quantities := [1, 1, 1, 1, 1]
        sleepCount := 4 } := by
  constructor
  · refine ⟨_, place_twap_ok ex s sd total slices interval (by omega),
      ?_, ?_⟩
    · simp
    · intro i hi
      simp [List.getElem?_map, List.getElem?_range, hi]
  · rw [place_twap_ok mockSlice2Fails "BTCUSDT" "BUY" 5 5 0 (by norm_num)]
    rw [show ((5 : ℤ).toNat) = 5 from rfl,
        show List.range 5 = [0, 1, 2, 3, 4] from rfl]
    have hq : ∀ i, twapSliceQty 5 5 i = 1 := by
      intro i
      simp only [twapSliceQty]
      by_cases hi : i < 5 - 1
      · rw [if_pos hi, show (5 : ℚ) / ((5 : ℕ) : ℚ) = 1 by norm_num]
        exact round8_one
      · rw [if_neg hi,
            show (5 : ℚ) - (5 : ℚ) / ((5 : ℕ) : ℚ) * (((5 : ℕ) : ℚ) - 1) = 1
              by norm_num]
        exact round8_one
    simp only [List.map_cons, List.map_nil, hq]
    rfl

theorem twap_results_per_slice_witness :
    (1 : ℤ) ≤ 5 ∧
    ((∃ tr, place_twap mockOk "BTCUSDT" "BUY" 5 5 0 = Except.ok tr ∧
      tr.results.length = (5 : ℤ).toNat ∧
      ∀ i, i < (5 : ℤ).toNat →
        tr.results[i]? = some (place_market_order (mockOk i) "BTCUSDT" "BUY"
          (twapSliceQty 5 (5 : ℤ).toNat i))) ∧
    place_twap mockSlice2Fails "BTCUSDT" "BUY" 5 5 0 = Except.ok
      { results := [AdapterResult.success (),
                    AdapterResult.error "Insufficient margin",
                    AdapterResult.success (), AdapterResult.success (),
                    AdapterResult.success ()]
        quantities := [1, 1, 1, 1, 1]
        sleepCount := 4 }) :=
  ⟨by norm_num,
   twap_results_per_slice mockOk "BTCUSDT" "BUY" 5 5 0 (by norm_num)⟩

/-- Claim C9 amended: `place_twap` validates only `slices`, never
`total_quantity`. With total 0 it still submits `slices` market orders each
of quantity 0; with negative total it likewise does not fail and submits the
8-decimal-rounded per-slice quantities (negative in general, though a tiny
negative total can round to a quantity of 0); concretely, total −1 over
3 slices submits three orders of −0.33333333 each. -/
theorem twap_no_total_validation {α : Type}
    (ex : ℕ → List (String × PVal) → Except Exc α) (s sd : String)
    (slices interval : ℤ) (h : 1 ≤ slices) :
    (∃ tr, place_twap ex s sd 0 slices interval = Except.ok tr ∧
      tr.quantities = List.replicate slices.toNat 0) ∧
    (∀ total : ℚ, total < 0 →
      ∃ tr, place_twap ex s sd total slices interval = Except.ok tr) ∧
    (∃ tr, place_twap mockOk "BTCUSDT" "SELL" (-1) 3 0 = Except.ok tr ∧
      tr.quantities = [-33333333 / 100000000, -33333333 / 100000000,
        -33333333 / 100000000] ∧
      ∀ q ∈ tr.quantities, q < 0) := by
  have hq0 : ∀ i, twapSliceQty 0 slices.toNat i = 0 := by
    intro i
    simp only [twapSliceQty]
    by_cases hi : i < slices.toNat - 1
    · rw [if_pos hi, show (0 : ℚ) / ((slices.toNat : ℕ) : ℚ) = 0 by simp]
      exact round8_zero
    · rw [if_neg hi,
          show (0 : ℚ) - (0 : ℚ) / ((slices.toNat : ℕ) : ℚ) *
            (((slices.toNat : ℕ) : ℚ) - 1) = 0 by simp]
      exact round8_zero
  refine ⟨⟨_, place_twap_ok ex s sd 0 slices interval (by omega), ?_⟩,
    fun total _ => ⟨_, place_twap_ok ex s sd total slices interval (by omega)⟩,
    ?_⟩
  · show (List.range slices.toNat).map (twapSliceQty 0 slices.toNat) =
      List.replicate slices.toNat 0
    refine List.eq_replicate_iff.mpr ⟨by simp, ?_⟩
    intro b hb
    obtain ⟨i, _, rfl⟩ := List.mem_map.mp hb
    exact hq0 i
  · have hqa : twapSliceQty (-1) 3 0 = -33333333 / 100000000 := by
      simp only [twapSliceQty]
      rw [if_pos (by norm_num),
          show (-1 : ℚ) / ((3 : ℕ) : ℚ) = -1 / 3 by norm_num]
      exact round8_neg_one_third
    have hqb : twapSliceQty (-1) 3 1 = -33333333 / 100000000 := by
      simp only [twapSliceQty]
      rw [if_pos (by norm_num),
          show (-1 : ℚ) / ((3 : ℕ) : ℚ) = -1 / 3 by norm_num]
      exact round8_neg_one_third
    have hqc : twapSliceQty (-1) 3 2 = -33333333 / 100000000 := by
      simp only [twapSliceQty]
      rw [if_neg (by norm_num),
          show (-1 : ℚ) - (-1 : ℚ) / ((3 : ℕ) : ℚ) * (((3 : ℕ) : ℚ) - 1)
            = -1 / 3 by norm_num]
      exact round8_neg_one_third
    refine ⟨_, place_twap_ok mockOk "BTCUSDT" "SELL" (-1) 3 0 (by norm_num),
      ?_, ?_⟩
    · show (List.range (3 : ℤ).toNat).map (twapSliceQty (-1) (3 : ℤ).toNat) =
        [-33333333 / 100000000, -33333333 / 100000000, -33333333 / 100000000]
      rw [show ((3 : ℤ).toNat) = 3 from rfl,
          show List.range 3 = [0, 1, 2] from rfl]
      simp only [List.map_cons, List.map_nil, hqa, hqb, hqc]
    · show ∀ q ∈ (List.range (3 : ℤ).toNat).map
        (twapSliceQty (-1) (3 : ℤ).toNat), q < 0
      rw [show ((3 : ℤ).toNat) = 3 from rfl,
          show List.range 3 = [0, 1, 2] from rfl]
      simp only [List.map_cons, List.map_nil, hqa, hqb, hqc, List.mem_cons,
        List.not_mem_nil, or_false]
      rintro q (rfl | rfl | rfl) <;> norm_num

theorem twap_no_total_validation_witness :
    ∃ tr, place_twap mockOk "BTCUSDT" "BUY" 0 3 0 = Except.ok tr ∧
      tr.quantities = List.replicate (3 : ℤ).toNat 0 :=
  (twap_no_total_validation mockOk "BTCUSDT" "BUY" 3 0 (by norm_num)).1

/-- Claim C9 counterexample for its negative-total clause: with
`total_quantity = −10⁻⁹` and one slice, the submitted quantity is
`round(−10⁻⁹, 8) = 0`, which is not negative. (IEEE-754 execution agrees:
`round(-1e-9, 8)` is `-0.0 == 0.0` in Python.) -/
theorem twap_negative_total_cex :
    place_twap mockOk "BTCUSDT" "SELL" (-(1 / 1000000000)) 1 0 = Except.ok
      { results := [AdapterResult.success ()]
        quantities := [0]
        sleepCount := 0 } ∧
    ¬ ((0 : ℚ) < 0) := by
  constructor
  · rw [place_twap_ok mockOk "BTCUSDT" "SELL" (-(1 / 1000000000)) 1 0
      (by norm_num)]
    have hq : twapSliceQty (-(1 / 1000000000)) 1 0 = 0 := by
      simp only [twapSliceQty]
      rw [if_neg (by norm_num),
          show (-(1 / 1000000000) : ℚ) -
              (-(1 / 1000000000) : ℚ) / ((1 : ℕ) : ℚ) * (((1 : ℕ) : ℚ) - 1)
              = -(1 / 1000000000) by push_cast; ring]
      exact round8_neg_tiny
    rw [show ((1 : ℤ).toNat) = 1 from rfl, show List.range 1 = [0] from rfl]
    simp only [List.map_cons, List.map_nil, hq]
    rfl
  · norm_num

/-- Claim C1 is violated by the code (a slip against the code's own comment
"For last slice, ensure rounding doesn't drop quantity"): the remainder is
computed from the unrounded base, and `total − (total/slices)·(slices−1)`
equals `total/slices` exactly, so no compensation occurs. At
`total_quantity = 0.1`, `slices = 3`, all three submitted quantities are
0.03333333 and their sum is 0.09999999 ≠ 0.1. (IEEE-754 execution agrees
with this 8-decimal outcome.) -/
theorem twap_sum_drift_cex :
    place_twap mockOk "BTCUSDT" "BUY" (1 / 10) 3 0 = Except.ok
      { results := [AdapterResult.success (), AdapterResult.success (),
                    AdapterResult.success ()]
        quantities := [3333333 / 100000000, 3333333 / 100000000,
                       3333333 / 100000000]
        sleepCount := 2 } ∧
    ([3333333 / 100000000, 3333333 / 100000000,
      3333333 / 100000000] : List ℚ).sum = 9999999 / 100000000 ∧
    ((9999999 : ℚ) / 100000000) ≠ 1 / 10 := by
  refine ⟨?_, by norm_num [List.sum_cons, List.sum_nil], by norm_num⟩
  rw [place_twap_ok mockOk "BTCUSDT" "BUY" (1 / 10) 3 0 (by norm_num)]
  have hqa : twapSliceQty (1 / 10) 3 0 = 3333333 / 100000000 := by
    simp only [twapSliceQty]
    rw [if_pos (by norm_num),
        show (1 : ℚ) / 10 / ((3 : ℕ) : ℚ) = 1 / 30 by norm_num]
    exact round8_one_thirtieth
  have hqb : twapSliceQty (1 / 10) 3 1 = 3333333 / 100000000 := by
    simp only [twapSliceQty]
    rw [if_pos (by norm_num),
        show (1 : ℚ) / 10 / ((3 : ℕ) : ℚ) = 1 / 30 by norm_num]
    exact round8_one_thirtieth
  have hqc : twapSliceQty (1 / 10) 3 2 = 3333333 / 100000000 := by
    simp only [twapSliceQty]
    rw [if_neg (by norm_num),
        show (1 : ℚ) / 10 - (1 : ℚ) / 10 / ((3 : ℕ) : ℚ) *
          (((3 : ℕ) : ℚ) - 1) = 1 / 30 by norm_num]
    exact round8_one_thirtieth
  rw [show ((3 : ℤ).toNat) = 3 from rfl,
      show List.range 3 = [0, 1, 2] from rfl]
  simp only [List.map_cons, List.map_nil, hqa, hqb, hqc]
  rfl

/-- Claim C5 is violated by the code: at `total_quantity = 1.0`,
`slices = 3`, the last slice's float remainder `1.0 − 2·fl(1/3)` is
`0.33333333333333337`, whose 8-decimal rounding is 0.33333333, not the
0.33333334 the spec example states; the exact-rational embedding computes
`round8 (1 − (1/3)·2) = round8 (1/3) = 0.33333333` identically. The three
submitted quantities are all 0.33333333 and sum to 0.99999999 ≠ 1.0. -/
theorem twap_example_1_3_cex :
    place_twap mockOk "BTCUSDT" "BUY" 1 3 0 = Except.ok
      { results := [AdapterResult.success (), AdapterResult.success (),
                    AdapterResult.success ()]
        quantities := [33333333 / 100000000, 33333333 / 100000000,
                       33333333 / 100000000]
        sleepCount := 2 } ∧
    ([33333333 / 100000000, 33333333 / 100000000,
      33333333 / 100000000] : List ℚ) ≠
      [33333333 / 100000000, 33333333 / 100000000, 33333334 / 100000000] ∧
    ([33333333 / 100000000, 33333333 / 100000000,
      33333333 / 100000000] : List ℚ).sum ≠ 1 := by
  refine ⟨?_, by norm_num, by norm_num [List.sum_cons, List.sum_nil]⟩
  rw [place_twap_ok mockOk "BTCUSDT" "BUY" 1 3 0 (by norm_num)]
  have hqa : twapSliceQty 1 3 0 = 33333333 / 100000000 := by
    simp only [twapSliceQty]
    rw [if_pos (by norm_num),
        show (1 : ℚ) / ((3 : ℕ) : ℚ) = 1 / 3 by norm_num]
    exact round8_one_third
  have hqb : twapSliceQty 1 3 1 = 33333333 / 100000000 := by
    simp only [twapSliceQty]
    rw [if_pos (by norm_num),
        show (1 : ℚ) / ((3 : ℕ) : ℚ) = 1 / 3 by norm_num]
    exact round8_one_third
  have hqc : twapSliceQty 1 3 2 = 33333333 / 100000000 := by
    simp only [twapSliceQty]
    rw [if_neg (by norm_num),
        show (1 : ℚ) - (1 : ℚ) / ((3 : ℕ) : ℚ) * (((3 : ℕ) : ℚ) - 1)
          = 1 / 3 by norm_num]
    exact round8_one_third
  rw [show ((3 : ℤ).toNat) = 3 from rfl,
      show List.range 3 = [0, 1, 2] from rfl]
  simp only [List.map_cons, List.map_nil, hqa, hqb, hqc]
  rfl

end TradingBot
